import Mathlib

/-!
Verification of the declarative wb_command wrappers in
src/nibabies/interfaces/workbench.py.

The file embeds, as executable Lean definitions:
 - the VALID_STRUCTURES tuple and the per-interface field declarations
   (name, mandatory flag, requires list, position) exactly as written in
   the source;
 - the two overridden formatters, CiftiCreateDenseFromTemplate._format_arg
   (metric / label / volume list-of-tuple rendering) and
   VolumeAffineResample._format_arg (the flirt fallback pair), including
   the dynamic-typing behaviour of Python str.join on non-string items;
 - the shared builder machinery (validation, derived output names,
   position-ordered assembly, post-condition check).  That machinery lives
   in the nipype dependency, outside this repository's source tree, so it
   is modelled from the specification document; every such definition is
   marked "Modelled from the spec:" in its doc comment.
-/

namespace Workbench

/-- The VALID_STRUCTURES tuple of the source module, in source order. -/
def VALID_STRUCTURES : List String := [
  "CORTEX_LEFT",
  "CORTEX_RIGHT",
  "CEREBELLUM",
  "ACCUMBENS_LEFT",
  "ACCUMBENS_RIGHT",
  "ALL_GREY_MATTER",
  "ALL_WHITE_MATTER",
  "AMYGDALA_LEFT",
  "AMYGDALA_RIGHT",
  "BRAIN_STEM",
  "CAUDATE_LEFT",
  "CAUDATE_RIGHT",
  "CEREBELLAR_WHITE_MATTER_LEFT",
  "CEREBELLAR_WHITE_MATTER_RIGHT",
  "CEREBELLUM_LEFT",
  "CEREBELLUM_RIGHT",
  "CEREBRAL_WHITE_MATTER_LEFT",
  "CEREBRAL_WHITE_MATTER_RIGHT",
  "CORTEX",
  "DIENCEPHALON_VENTRAL_LEFT",
  "DIENCEPHALON_VENTRAL_RIGHT",
  "HIPPOCAMPUS_LEFT",
  "HIPPOCAMPUS_RIGHT",
  "INVALID",
  "OTHER",
  "OTHER_GREY_MATTER",
  "OTHER_WHITE_MATTER",
  "PALLIDUM_LEFT",
  "PALLIDUM_RIGHT",
  "PUTAMEN_LEFT",
  "PUTAMEN_RIGHT",
  "THALAMUS_LEFT",
  "THALAMUS_RIGHT"]

/-- A Python value occurring inside a metric / label / volume tuple:
either a string (structure name or file path) or a boolean (the optional
trailing from-cropped marker of a volume tuple). -/
inductive PyVal where
  | str : String → PyVal
  | bool : Bool → PyVal
deriving DecidableEq, Repr

/-- Python str conversion used by str.join: a non-string item is a
TypeError.  Collects the string contents of a tuple in order, failing at
the first non-string item, exactly as CPython's str.join does. -/
def joinItems : List PyVal → Except String (List String)
  | [] => .ok []
  | PyVal.str s :: xs =>
    match joinItems xs with
    | .error e => .error e
    | .ok rest => .ok (s :: rest)
  | PyVal.bool _ :: _ => .error "TypeError"

/-- Python sep.join(tuple): intercalates the items with the separator,
raising TypeError when an item is not a string. -/
def strJoin (sep : String) (xs : List PyVal) : Except String String :=
  match joinItems xs with
  | .error e => .error e
  | .ok ss => .ok (String.intercalate sep ss)

/-- The test val[-1] is True of the source formatter (false on a tuple
whose last item is a string or the boolean False). -/
def lastIsTrue (val : List PyVal) : Bool :=
  match val.getLast? with
  | some (PyVal.bool true) => true
  | _ => false

/-- One loop iteration of CiftiCreateDenseFromTemplate._format_arg: when
the tuple's last element is the boolean True it is replaced, after the
first two elements, by the string "-from-cropped " (trailing space as in
the source), then the flag -name and the tuple are joined with single
spaces. -/
def formatGroup (name : String) (val : List PyVal) : Except String String :=
  let val := if lastIsTrue val then val.take 2 ++ [PyVal.str "-from-cropped "] else val
  strJoin " " (PyVal.str ("-" ++ name) :: val)

/-- CiftiCreateDenseFromTemplate._format_arg for the names metric, label
and volume: the groups rendered for the tuples of the list are
concatenated by the Python += with no separator in between, and the
result is substituted into the field's argstr, which is the identity
template. -/
def formatArgStructures (name : String) : List (List PyVal) → Except String String
  | [] => .ok ""
  | v :: vs =>
    match formatGroup name v with
    | .error e => .error e
    | .ok g =>
      match formatArgStructures name vs with
      | .error e => .error e
      | .ok rest => .ok (g ++ rest)

/-- The input fields of VolumeAffineResample that take part in the flirt
formatter.  The two optional flirt companion volumes are None when left
Undefined in the traited input spec. -/
structure VolumeAffineResampleInputs where
  in_file : String
  volume_space : String
  flirt : Bool
  flirt_source_volume : Option String
  flirt_target_volume : Option String
deriving DecidableEq, Repr

/-- Python x or y for an optional string field: the nipype Undefined
value and the empty string are falsy, any other string is returned
unchanged. -/
def pyOr (a : Option String) (b : String) : String :=
  match a with
  | some s => if s = "" then b else s
  | none => b

/-- VolumeAffineResample._format_arg at the flirt field: a truthy value
is replaced by the pair (flirt_source_volume or in_file,
flirt_target_volume or volume_space) and substituted into the argstr
"-flirt %s %s"; a falsy (explicitly False) value falls through to the
base formatter, where interpolating the lone boolean into the
two-placeholder argstr is a TypeError. -/
def formatFlirt (i : VolumeAffineResampleInputs) : Except String String :=
  if i.flirt then
    .ok ("-flirt " ++ pyOr i.flirt_source_volume i.in_file ++ " "
      ++ pyOr i.flirt_target_volume i.volume_space)
  else .error "TypeError"

/-- One declared input field: name, mandatory flag, effective requires
list, declared position.  The requires list records the metadata the
traits layer actually reads from the source declaration. -/
structure FieldSpec where
  fname : String
  mandatory : Bool
  requires : List String
  position : Option Nat
deriving DecidableEq, Repr

/-- CiftiCreateDenseFromTemplateInputSpec.  The series_unit declaration
in the source spells its metadata key requries, a key the traits
machinery stores but never reads, so the field carries no effective
requires list. -/
def ciftiCreateDenseFromTemplateFields : List FieldSpec := [
  ⟨"in_file", true, [], some 0⟩,
  ⟨"out_file", false, [], some 1⟩,
  ⟨"series", false, [], some 2⟩,
  ⟨"series_step", false, ["series"], some 3⟩,
  ⟨"series_start", false, ["series"], some 4⟩,
  ⟨"series_unit", false, [], some 5⟩,
  ⟨"volume_all", false, [], some 6⟩,
  ⟨"volume_all_from_cropped", false, ["volume_all"], some 7⟩,
  ⟨"label_collision", false, [], some 8⟩,
  ⟨"cifti", false, [], some 9⟩,
  ⟨"metric", false, [], some 10⟩,
  ⟨"label", false, [], some 11⟩,
  ⟨"volume", false, [], some 12⟩]

/-- CiftiCreateDenseTimeseriesInputSpec. -/
def ciftiCreateDenseTimeseriesFields : List FieldSpec := [
  ⟨"out_file", false, [], some 0⟩,
  ⟨"in_file", true, [], some 1⟩,
  ⟨"structure_label_volume", true, [], some 2⟩,
  ⟨"left_metric", false, [], some 3⟩,
  ⟨"roi_left", false, ["left_metric"], some 4⟩,
  ⟨"right_metric", false, [], some 5⟩,
  ⟨"roi_right", false, ["right_metric"], some 6⟩,
  ⟨"cerebellum_metric", false, [], some 7⟩,
  ⟨"roi_cerebellum", false, ["cerebellum_metric"], some 8⟩,
  ⟨"timestep", false, [], none⟩,
  ⟨"timestart", false, [], none⟩,
  ⟨"unit", false, [], none⟩]

/-- CiftiDilateInputSpec. -/
def ciftiDilateFields : List FieldSpec := [
  ⟨"in_file", true, [], some 0⟩,
  ⟨"direction", true, [], some 1⟩,
  ⟨"surface_distance", true, [], some 2⟩,
  ⟨"volume_distance", true, [], some 3⟩,
  ⟨"out_file", false, [], some 4⟩,
  ⟨"left_surface", false, [], some 5⟩,
  ⟨"left_corrected_areas", false, ["left_surface"], some 6⟩,
  ⟨"right_surface", false, [], some 7⟩,
  ⟨"right_corrected_areas", false, ["right_surface"], some 8⟩,
  ⟨"cerebellum_surface", false, [], some 9⟩,
  ⟨"cerebellum_corrected_areas", false, ["cerebellum_surface"], some 10⟩,
  ⟨"bad_brainordinate_roi", false, [], some 11⟩,
  ⟨"nearest", false, [], some 12⟩,
  ⟨"merged_volume", false, [], some 13⟩,
  ⟨"legacy_mode", false, [], some 14⟩]

/-- VolumeAffineResampleInputSpec. -/
def volumeAffineResampleFields : List FieldSpec := [
  ⟨"in_file", true, [], some 0⟩,
  ⟨"volume_space", true, [], some 1⟩,
  ⟨"method", true, [], some 2⟩,
  ⟨"out_file", false, [], some 3⟩,
  ⟨"affine", true, [], some 4⟩,
  ⟨"flirt", false, [], some 5⟩,
  ⟨"flirt_source_volume", false, ["flirt"], none⟩,
  ⟨"flirt_target_volume", false, ["flirt"], none⟩]

/-- VolumeAllLabelsToROIsInputSpec. -/
def volumeAllLabelsToROIsFields : List FieldSpec := [
  ⟨"in_file", true, [], some 0⟩,
  ⟨"label_map", true, [], some 1⟩,
  ⟨"out_file", false, [], some 2⟩]

/-- VolumeLabelExportTableInputSpec. -/
def volumeLabelExportTableFields : List FieldSpec := [
  ⟨"in_file", true, [], some 0⟩,
  ⟨"label_map", true, [], some 1⟩,
  ⟨"out_file", false, [], some 2⟩]

/-- VolumeLabelImportInputSpec. -/
def volumeLabelImportFields : List FieldSpec := [
  ⟨"in_file", true, [], some 0⟩,
  ⟨"label_list_file", true, [], some 1⟩,
  ⟨"out_file", false, [], some 2⟩,
  ⟨"discard_others", false, [], none⟩,
  ⟨"unlabeled_values", false, [], none⟩,
  ⟨"subvolume", false, [], none⟩,
  ⟨"drop_unused_labels", false, [], none⟩]

/-- The input specs of the seven wrapped commands of the module. -/
def allInputSpecs : List (List FieldSpec) := [
  ciftiCreateDenseFromTemplateFields,
  ciftiCreateDenseTimeseriesFields,
  ciftiDilateFields,
  volumeAffineResampleFields,
  volumeAllLabelsToROIsFields,
  volumeLabelExportTableFields,
  volumeLabelImportFields]

/-- The error taxonomy of the builder. -/
inductive WBError where
  | validation : String → WBError
  | notFound : String → WBError
  | execution : Nat → WBError
  | postcondition : String → WBError
deriving DecidableEq, Repr

/-- Modelled from the spec: the shared builder's mandatory-field pass
(nipype's check of mandatory inputs is outside this repository).  Finds
the first declared-mandatory field with no assigned value. -/
def firstMissingMandatory (fields : List FieldSpec) (assigned : List String) :
    Option FieldSpec :=
  fields.find? fun f => f.mandatory && !(assigned.contains f.fname)

/-- Modelled from the spec: the shared builder's companion-requirement
pass.  Finds the first assigned field one of whose effective requires
companions is not assigned. -/
def firstUnmetRequires (fields : List FieldSpec) (assigned : List String) :
    Option FieldSpec :=
  fields.find? fun f =>
    assigned.contains f.fname && !(f.requires.all fun r => assigned.contains r)

/-- Modelled from the spec: validation runs before rendering and
execution, and fails with a ValidationError naming the offending field
when a mandatory field is missing or a companion requirement is
unmet. -/
def validate (fields : List FieldSpec) (assigned : List String) :
    Except WBError Unit :=
  match firstMissingMandatory fields assigned with
  | some f => .error (.validation f.fname)
  | none =>
    match firstUnmetRequires fields assigned with
    | some f => .error (.validation f.fname)
    | none => .ok ()

/-- Modelled from the spec: the post-condition pass after a zero exit
verifies each declared output path exists on the (abstracted) filesystem,
failing with a PostconditionError at the first missing one. -/
def checkOutputs (fsEx : String → Bool) : List String → Except WBError (List String)
  | [] => .ok []
  | p :: ps =>
    if fsEx p then
      match checkOutputs fsEx ps with
      | .error e => .error e
      | .ok rest => .ok (p :: rest)
    else .error (.postcondition p)

/-- Modelled from the spec: the control flow of one invocation —
validate, then run the child process, then check the declared outputs.
A validation error is returned before any subprocess runs (the exit code
and filesystem arguments are never consulted); a nonzero exit is an
ExecutionError; a zero exit with a missing declared output is a
PostconditionError; otherwise the list of produced paths is the
Result. -/
def execute (fields : List FieldSpec) (assigned : List String)
    (exitCode : Nat) (outputs : List String) (fsEx : String → Bool) :
    Except WBError (List String) :=
  match validate fields assigned with
  | .error e => .error e
  | .ok _ =>
    if exitCode ≠ 0 then .error (.execution exitCode)
    else checkOutputs fsEx outputs

/-- A naming template prefix_%s_suffix split around its one %s
placeholder. -/
structure NameTemplate where
  pre : String
  suf : String
deriving DecidableEq, Repr

/-- Helper on the reversed character list: drop characters up to and
including the first dot (the last dot of the original string); none when
there is no dot. -/
def stripExtAux : List Char → Option (List Char)
  | [] => none
  | c :: cs => if c = '.' then some cs else stripExtAux cs

/-- Modelled from the spec: extension stripping in derived-name
computation — the basis file name loses its final dot-suffix (a name
with no dot is kept whole). -/
def stripExt (s : String) : String :=
  match stripExtAux s.data.reverse with
  | some rest => String.mk rest.reverse
  | none => s

/-- Modelled from the spec: applying a naming template to a basis file
name substitutes the extension-stripped basis name at the %s
placeholder. -/
def applyTemplate (tpl : NameTemplate) (basis : String) : String :=
  tpl.pre ++ stripExt basis ++ tpl.suf

/-- Modelled from the spec: an output field with an explicit value keeps
it; with no explicit value the name is derived by applying the declared
template to the designated basis input's file name. -/
def derivedOutput (explicit : Option String) (tpl : NameTemplate)
    (basis : String) : String :=
  match explicit with
  | some v => v
  | none => applyTemplate tpl basis

/-- The name_template of VolumeLabelImportInputSpec.out_file,
"%s_labels.nii.gz", split around its placeholder. -/
def volumeLabelImportOutTemplate : NameTemplate := ⟨"", "_labels.nii.gz"⟩

/-- The allowed structure names of the metric field of
CiftiCreateDenseFromTemplate; the source writes
traits.Enum(VALID_STRUCTURES). -/
def metricStructures : List String := VALID_STRUCTURES

/-- The allowed structure names of the label field; the source writes
traits.Enum(VALID_STRUCTURES). -/
def labelStructures : List String := VALID_STRUCTURES

/-- The allowed structure names of the volume field; both tuple variants
in the source write traits.Enum(VALID_STRUCTURES). -/
def volumeStructures : List String := VALID_STRUCTURES

/-- Membership in the closed allowed-structure set. -/
def structureAllowed (s : String) : Bool := VALID_STRUCTURES.contains s

/-- Modelled from the spec: assigning the (structure, path) elements of a
metric / label / volume field validates every structure name against the
closed allowed set at assignment time, before any command assembly or
subprocess execution; an element outside the set aborts the assignment
with a ValidationError naming the value. -/
def assignStructureField :
    List (String × String) → Except WBError (List (String × String))
  | [] => .ok []
  | p :: ps =>
    if structureAllowed p.1 then
      match assignStructureField ps with
      | .error e => .error e
      | .ok rest => .ok (p :: rest)
    else .error (.validation p.1)

/-- The declared positions of an input spec, in declaration order. -/
def declaredPositions (fields : List FieldSpec) : List Nat :=
  fields.filterMap fun f => f.position

/-- Ordering of rendered positional fields by their declared position. -/
def posLE (a b : Nat × String) : Prop := a.1 ≤ b.1

instance : DecidableRel posLE := fun a b => Nat.decLe a.1 b.1

instance : IsTotal (Nat × String) posLE := ⟨fun a b => Nat.le_total a.1 b.1⟩

instance : IsTrans (Nat × String) posLE := ⟨fun _ _ _ => Nat.le_trans⟩

/-- Modelled from the spec: the assembler orders the rendered positional
fields by ascending declared position. -/
def assemblePositional (rs : List (Nat × String)) : List (Nat × String) :=
  rs.insertionSort posLE

/-- Modelled from the spec: the assembled command line — the fixed
command prefix, the rendered positional fields in ascending position
order, then the rendered fields with no declared position, joined with
single spaces. -/
def assemble (cmd : String) (positional : List (Nat × String))
    (nonPositional : List String) : String :=
  String.intercalate " "
    (cmd :: ((assemblePositional positional).map Prod.snd ++ nonPositional))

/-- The fixed command prefix of CiftiCreateDenseFromTemplate. -/
def cmdFromTemplate : String := "wb_command -cifti-create-dense-from-template"

/-- Helper: a zero-exit run whose declared outputs contain a path missing
from the filesystem fails the post-condition pass with a
PostconditionError naming some missing path. -/
theorem checkOutputs_missing (fsEx : String → Bool) :
    ∀ (outs : List String) (p : String), p ∈ outs → fsEx p = false →
      ∃ q, fsEx q = false ∧ checkOutputs fsEx outs = .error (.postcondition q) := by
  intro outs
  induction outs with
  | nil =>
    intro p hp hm
    exact absurd hp (List.not_mem_nil p)
  | cons r rs ih =>
    intro p hp hm
    by_cases hr : fsEx r = true
    · have hpr : p ∈ rs := by
        rcases List.mem_cons.mp hp with h | h
        · subst h
          rw [hm] at hr
          cases hr
        · exact h
      obtain ⟨q, hq, herr⟩ := ih p hpr hm
      exact ⟨q, hq, by simp [checkOutputs, hr, herr]⟩
    · have hr' : fsEx r = false := by
        revert hr
        cases fsEx r <;> simp
      exact ⟨r, hr', by simp [checkOutputs, hr']⟩

/-- C1: rendering a metric, label or volume tuple whose trailing element
is the boolean True yields the tokens -name structure path followed by
the substituted -from-cropped modifier (with the trailing space the
source appends); rendering a tuple whose trailing element is the boolean
False does NOT omit the boolean — the boolean is left in the tuple and
Python str.join raises a TypeError on the non-string item.  This theorem
evaluates the embedded formatter at both inputs, exhibiting the code bug
on the False case. -/
theorem C1_trailing_bool_rendering :
    formatArgStructures "volume"
      [[PyVal.str "OTHER", PyVal.str "functional.nii", PyVal.bool true]]
      = .ok "-volume OTHER functional.nii -from-cropped "
  ∧ formatArgStructures "volume"
      [[PyVal.str "PUTAMEN_LEFT", PyVal.str "functional.nii", PyVal.bool false]]
      = .error "TypeError" :=
  ⟨rfl, rfl⟩

/-- C2: with the flirt flag set, the rendered flirt argument is the
tokens -flirt source target, where source is flirt_source_volume when
explicitly supplied and in_file otherwise, and target is
flirt_target_volume when explicitly supplied and volume_space
otherwise. -/
theorem C2_flirt_fallback (i : VolumeAffineResampleInputs) (h : i.flirt = true) :
    (i.flirt_source_volume = none → i.flirt_target_volume = none →
      formatFlirt i = .ok ("-flirt " ++ i.in_file ++ " " ++ i.volume_space))
  ∧ (∀ s : String, i.flirt_source_volume = some s → s ≠ "" →
      i.flirt_target_volume = none →
      formatFlirt i = .ok ("-flirt " ++ s ++ " " ++ i.volume_space))
  ∧ (∀ t : String, i.flirt_source_volume = none →
      i.flirt_target_volume = some t → t ≠ "" →
      formatFlirt i = .ok ("-flirt " ++ i.in_file ++ " " ++ t))
  ∧ (∀ s t : String, i.flirt_source_volume = some s → s ≠ "" →
      i.flirt_target_volume = some t → t ≠ "" →
      formatFlirt i = .ok ("-flirt " ++ s ++ " " ++ t)) := by
  refine ⟨?_, ?_, ?_, ?_⟩
  · intro hs ht
    simp [formatFlirt, h, pyOr, hs, ht]
  · intro s hs hsne ht
    simp [formatFlirt, h, pyOr, hs, hsne, ht]
  · intro t hs ht htne
    simp [formatFlirt, h, pyOr, hs, ht, htne]
  · intro s t hs hsne ht htne
    simp [formatFlirt, h, pyOr, hs, hsne, ht, htne]

/-- Witness for C2 at the two mixed supplied/fallback combinations of
VolumeAffineResample: an explicit source with the target falling back to
volume_space, and an explicit target with the source falling back to
in_file. -/
theorem C2_flirt_fallback_witness :
    formatFlirt ⟨"functional.nii", "anatomical.nii", true, some "epi.nii", none⟩
      = .ok ("-flirt " ++ "epi.nii" ++ " " ++ "anatomical.nii")
  ∧ formatFlirt ⟨"functional.nii", "anatomical.nii", true, none, some "T1w.nii"⟩
      = .ok ("-flirt " ++ "functional.nii" ++ " " ++ "T1w.nii") :=
  ⟨(C2_flirt_fallback
      ⟨"functional.nii", "anatomical.nii", true, some "epi.nii", none⟩ rfl).2.1
      "epi.nii" rfl (by decide) rfl,
    (C2_flirt_fallback
      ⟨"functional.nii", "anatomical.nii", true, none, some "T1w.nii"⟩ rfl).2.2.1
      "T1w.nii" rfl rfl (by decide)⟩

/-- C3: the companion-requirement mechanism works for a field that
effectively declares a requires list (series_step without series is a
ValidationError), but series_unit spells its metadata key requries — a
key validation never reads — so supplying series_unit without series
passes validation, contradicting the claim.  This theorem evaluates the
embedded validator at both inputs, exhibiting the code bug. -/
theorem C3_requries_typo :
    validate ciftiCreateDenseFromTemplateFields ["in_file", "series_unit"]
      = .ok ()
  ∧ validate ciftiCreateDenseFromTemplateFields ["in_file", "series_step"]
      = .error (.validation "series_step") :=
  ⟨rfl, rfl⟩

/-- C4: the formatter concatenates consecutive rendered tuple groups with
no separator (first conjunct, for any tuples whose groups render); hence
two adjacent 2-tuples fuse the last token of the first group with the
flag of the next (second conjunct), and a whitespace separator appears
exactly when the earlier tuple's trailing True leaves the trailing space
of the substituted -from-cropped modifier (third conjunct). -/
theorem C4_group_concat (name : String) (v : List PyVal)
    (vs : List (List PyVal)) (g rest : String)
    (hg : formatGroup name v = .ok g)
    (hrest : formatArgStructures name vs = .ok rest) :
    formatArgStructures name (v :: vs) = .ok (g ++ rest)
  ∧ formatArgStructures "volume"
      [[PyVal.str "A", PyVal.str "p.nii"], [PyVal.str "B", PyVal.str "q.nii"]]
      = .ok "-volume A p.nii-volume B q.nii"
  ∧ formatArgStructures "volume"
      [[PyVal.str "A", PyVal.str "p.nii", PyVal.bool true],
        [PyVal.str "B", PyVal.str "q.nii"]]
      = .ok "-volume A p.nii -from-cropped -volume B q.nii" := by
  refine ⟨?_, rfl, rfl⟩
  simp [formatArgStructures, hg, hrest]

/-- Witness for C4 at two concrete 2-tuples: the groups are concatenated
with no separator between them. -/
theorem C4_group_concat_witness :
    formatArgStructures "volume"
      [[PyVal.str "A", PyVal.str "p.nii"], [PyVal.str "B", PyVal.str "q.nii"]]
      = .ok ("-volume A p.nii" ++ "-volume B q.nii") :=
  (C4_group_concat "volume" [PyVal.str "A", PyVal.str "p.nii"]
      [[PyVal.str "B", PyVal.str "q.nii"]] "-volume A p.nii" "-volume B q.nii"
      rfl rfl).1

/-- C5: an output field with no explicit value derives its path by
applying the naming template to the extension-stripped basis input name
(first conjunct); in particular the VolumeLabelImport out_file template
applied to the basis atlas.nii gives atlas_labels.nii.gz (second
conjunct). -/
theorem C5_derived_name (explicit : Option String) (tpl : NameTemplate)
    (basis : String) (h : explicit = none) :
    derivedOutput explicit tpl basis = tpl.pre ++ stripExt basis ++ tpl.suf
  ∧ derivedOutput none volumeLabelImportOutTemplate "atlas.nii"
      = "atlas_labels.nii.gz" := by
  subst h
  exact ⟨rfl, rfl⟩

/-- Witness for C5 at the literal example of the specification. -/
theorem C5_derived_name_witness :
    derivedOutput none volumeLabelImportOutTemplate "atlas.nii"
      = "atlas_labels.nii.gz" :=
  (C5_derived_name none volumeLabelImportOutTemplate "atlas.nii" rfl).2

/-- C6: the metric, label and volume fields of
CiftiCreateDenseFromTemplate share the single closed allowed-structure
set VALID_STRUCTURES, and assigning a structure element outside that set
fails with a ValidationError at assignment time, before any command
assembly or subprocess execution. -/
theorem C6_closed_structure_set :
    (metricStructures = VALID_STRUCTURES ∧ labelStructures = VALID_STRUCTURES
      ∧ volumeStructures = VALID_STRUCTURES)
  ∧ (∀ s f : String, structureAllowed s = false →
      assignStructureField [(s, f)] = .error (.validation s)) := by
  refine ⟨⟨rfl, rfl, rfl⟩, ?_⟩
  intro s f h
  simp [assignStructureField, h]

/-- Witness for C6 at a structure name outside the closed set. -/
theorem C6_closed_structure_set_witness :
    assignStructureField [("CORTEX_MIDDLE", "functional.nii")]
      = .error (.validation "CORTEX_MIDDLE") :=
  C6_closed_structure_set.2 "CORTEX_MIDDLE" "functional.nii" rfl

/-- C7: for any of the embedded input specs, omitting a value for a
declared-mandatory field makes validation fail with a ValidationError
naming a missing mandatory field, and the whole invocation fails with
that same error whatever the exit code, outputs and filesystem would
have been — the subprocess stage is never consulted. -/
theorem C7_mandatory_missing (fields : List FieldSpec) (assigned : List String)
    (_hspec : fields ∈ allInputSpecs) (f : FieldSpec) (hf : f ∈ fields)
    (hm : f.mandatory = true) (hna : assigned.contains f.fname = false) :
    ∃ g : FieldSpec, g.mandatory = true ∧ assigned.contains g.fname = false ∧
      validate fields assigned = .error (.validation g.fname) ∧
      ∀ ec outs fsEx, execute fields assigned ec outs fsEx
        = .error (.validation g.fname) := by
  have hsome : (firstMissingMandatory fields assigned).isSome := by
    rw [firstMissingMandatory, List.find?_isSome]
    refine ⟨f, hf, ?_⟩
    rw [hm, hna]
    rfl
  obtain ⟨g, hg⟩ := Option.isSome_iff_exists.mp hsome
  have hgf : fields.find?
      (fun f => f.mandatory && !(assigned.contains f.fname)) = some g := hg
  have hp := List.find?_some hgf
  simp only [Bool.and_eq_true, Bool.not_eq_true'] at hp
  obtain ⟨hgm, hgc⟩ := hp
  refine ⟨g, hgm, hgc, ?_, ?_⟩
  · simp [validate, hg]
  · intro ec outs fsEx
    simp [execute, validate, hg]

/-- Witness for C7: CiftiCreateDenseTimeseries with only in_file assigned
is rejected before execution. -/
theorem C7_mandatory_missing_witness :
    ∃ g : FieldSpec, g.mandatory = true
      ∧ List.contains ["in_file"] g.fname = false
      ∧ validate ciftiCreateDenseTimeseriesFields ["in_file"]
          = .error (.validation g.fname)
      ∧ ∀ ec outs fsEx,
          execute ciftiCreateDenseTimeseriesFields ["in_file"] ec outs fsEx
            = .error (.validation g.fname) :=
  C7_mandatory_missing ciftiCreateDenseTimeseriesFields ["in_file"] (by decide)
    ⟨"structure_label_volume", true, [], some 2⟩ (by decide) rfl (by decide)

/-- C8: assembly is deterministic — each embedded renderer and the
assembler are functions of the field values alone (their signatures admit
no environment), so identical field values yield byte-identical
output. -/
theorem C8_deterministic_assembly :
    (∀ (n : String) (v w : List (List PyVal)), v = w →
      formatArgStructures n v = formatArgStructures n w)
  ∧ (∀ i j : VolumeAffineResampleInputs, i = j → formatFlirt i = formatFlirt j)
  ∧ (∀ (ps qs : List (Nat × String)) (ns ms : List String), ps = qs → ns = ms →
      assemble cmdFromTemplate ps ns = assemble cmdFromTemplate qs ms) :=
  ⟨fun _ _ _ h => by rw [h], fun _ _ h => by rw [h],
    fun _ _ _ _ h1 h2 => by rw [h1, h2]⟩

/-- Witness for C8 at a concrete repeated assembly. -/
theorem C8_deterministic_assembly_witness :
    assemble cmdFromTemplate [(0, "func.dtseries.nii"), (1, "out.dtseries.nii")] []
      = assemble cmdFromTemplate
          [(0, "func.dtseries.nii"), (1, "out.dtseries.nii")] [] :=
  C8_deterministic_assembly.2.2 _ _ _ _ rfl rfl

/-- C9: in every embedded input spec the declared positions are pairwise
distinct, and the assembler renders positional fields in strictly
ascending position order whenever the positions are pairwise
distinct. -/
theorem C9_positions_unique_ascending :
    (∀ fields ∈ allInputSpecs, (declaredPositions fields).Nodup)
  ∧ (∀ rs : List (Nat × String), (rs.map Prod.fst).Nodup →
      ((assemblePositional rs).map Prod.fst).Sorted (· < ·)) := by
  constructor
  · decide
  · intro rs hnd
    have hsorted : (assemblePositional rs).Sorted posLE :=
      List.sorted_insertionSort posLE rs
    have hle : ((assemblePositional rs).map Prod.fst).Sorted (· ≤ ·) :=
      List.Pairwise.map Prod.fst (fun _ _ h => h) hsorted
    have hperm : List.Perm (assemblePositional rs) rs :=
      List.perm_insertionSort posLE rs
    have hnd2 : ((assemblePositional rs).map Prod.fst).Nodup :=
      ((hperm.map Prod.fst).nodup_iff).mpr hnd
    exact List.Sorted.lt_of_le hle hnd2

/-- Witness for C9: positions of CiftiDilate are pairwise distinct, and a
concrete out-of-order rendering is sorted strictly ascending. -/
theorem C9_positions_unique_ascending_witness :
    (declaredPositions ciftiDilateFields).Nodup
  ∧ ((assemblePositional [(2, "b"), (0, "a"), (1, "c")]).map Prod.fst).Sorted
      (· < ·) :=
  ⟨C9_positions_unique_ascending.1 ciftiDilateFields (by decide),
    C9_positions_unique_ascending.2 [(2, "b"), (0, "a"), (1, "c")] (by decide)⟩

/-- C10: after a zero exit, a declared output path missing from the
filesystem makes the invocation fail with a PostconditionError naming a
missing path, and no Result is returned. -/
theorem C10_postcondition (fields : List FieldSpec) (assigned : List String)
    (outs : List String) (fsEx : String → Bool) (p : String)
    (hv : validate fields assigned = .ok ())
    (hp : p ∈ outs) (hm : fsEx p = false) :
    ∃ q, fsEx q = false ∧
      execute fields assigned 0 outs fsEx = .error (.postcondition q) := by
  obtain ⟨q, hq, herr⟩ := checkOutputs_missing fsEx outs p hp hm
  refine ⟨q, hq, ?_⟩
  simp [execute, hv, herr]

/-- Witness for C10: VolumeLabelImport with both mandatory inputs
assigned, exit code zero, and a filesystem on which the declared output
is absent. -/
theorem C10_postcondition_witness :
    ∃ q, (fun _ : String => false) q = false ∧
      execute volumeLabelImportFields ["in_file", "label_list_file"] 0
        ["atlas_labels.nii.gz"] (fun _ => false)
        = .error (.postcondition q) :=
  C10_postcondition volumeLabelImportFields ["in_file", "label_list_file"]
    ["atlas_labels.nii.gz"] (fun _ => false) "atlas_labels.nii.gz" rfl
    (List.mem_singleton.mpr rfl) rfl

end Workbench
